import Mathlib

/-!
Shallow embedding of the kzrk multiplayer room service
(`src/models/*.rs`, `src/systems/multiplayer.rs`, `src/systems/events.rs`,
`src/api/multiplayer_service.rs`).

Modelling conventions:
* `u32` values are `Nat` with explicit `% 2 ^ 32` at every arithmetic site
  that wraps in Rust release builds (`u32add`, `u32mul`).
* `f32`/`f64` quantities (distances, fuel efficiency) are modelled as `ℚ`;
  the Rust saturating float-to-int cast `as u32` is modelled by
  `Int.toNat` (negative values clamp to 0) combined with `min · (2^32 - 1)`.
* `chrono` timestamps are modelled as `Int` seconds; `Duration::num_seconds`
  of `now - earlier` is then exactly `now - earlier`.
* `Uuid` values are modelled as `Nat`; `Uuid::new_v4()` (fresh randomness) is
  modelled as an explicit input parameter.
* `HashMap` fields are modelled as association lists (the code relies only on
  lookup / insert / per-key update; key uniqueness, which `HashMap` provides
  by construction, appears as an explicit hypothesis where a proof needs it).
* Rust methods that mutate `&mut self` become functions returning the updated
  value (paired with the Rust return value where there is one).
* Database persistence, the registry `Mutex`, and player-session bookkeeping
  are environmental I/O side effects outside the embedded state.
-/

namespace Kzrk

/-- Modulus of Rust `u32` arithmetic. -/
def U32 : Nat := 2 ^ 32

/-- Wrapping `u32` addition. -/
def u32add (a b : Nat) : Nat := (a + b) % U32

/-- Wrapping `u32` multiplication. -/
def u32mul (a b : Nat) : Nat := (a * b) % U32

/-! ## `src/models/cargo.rs` -/

/-- Rust `CargoType` (the `volatility: f32` field is unused by the embedded
operations and omitted). -/
structure CargoType where
  id : String
  name : String
  base_price : Nat
  weight_per_unit : Nat
deriving DecidableEq

/-- Rust `CargoInventory`: `HashMap<String, u32>` as an association list. -/
structure CargoInventory where
  inventory : List (String × Nat)
deriving DecidableEq

/-- Rust `CargoInventory::new`. -/
def CargoInventory.new : CargoInventory := ⟨[]⟩

/-- Rust `CargoInventory::get_quantity`. -/
def CargoInventory.get_quantity (inv : CargoInventory) (cargo_id : String) : Nat :=
  match inv.inventory.lookup cargo_id with
  | some q => q
  | none => 0

/-- Rust `CargoInventory::add_cargo`: `*entry(id).or_insert(0) += quantity`. -/
def CargoInventory.add_cargo (inv : CargoInventory) (cargo_id : String) (quantity : Nat) :
    CargoInventory :=
  if inv.inventory.any (fun kv => kv.1 = cargo_id) then
    ⟨inv.inventory.map (fun kv =>
      if kv.1 = cargo_id then (kv.1, u32add kv.2 quantity) else kv)⟩
  else
    ⟨inv.inventory ++ [(cargo_id, u32add 0 quantity)]⟩

/-- Rust `CargoInventory::remove_cargo`: subtract when the held quantity suffices,
dropping the key when it reaches 0; returns the success flag. -/
def CargoInventory.remove_cargo (inv : CargoInventory) (cargo_id : String) (quantity : Nat) :
    CargoInventory × Bool :=
  match inv.inventory.lookup cargo_id with
  | some current =>
    if quantity ≤ current then
      if current - quantity = 0 then
        (⟨inv.inventory.filter (fun kv => ¬ kv.1 = cargo_id)⟩, true)
      else
        (⟨inv.inventory.map (fun kv =>
          if kv.1 = cargo_id then (kv.1, kv.2 - quantity) else kv)⟩, true)
    else (inv, false)
  | none => (inv, false)

/-- Rust `CargoInventory::total_weight`: sum of `weight_per_unit * quantity` over
the inventory (0 for unknown cargo ids), in wrapping `u32` arithmetic. -/
def CargoInventory.total_weight (inv : CargoInventory)
    (cargo_types : List (String × CargoType)) : Nat :=
  inv.inventory.foldl
    (fun acc kv =>
      u32add acc
        (match cargo_types.lookup kv.1 with
         | some ct => u32mul ct.weight_per_unit kv.2
         | none => 0))
    0

/-! ## `src/models/player.rs` -/

/-- Rust `Player`. `fuel_efficiency: f32` is modelled as `ℚ`. -/
structure Player where
  money : Nat
  current_airport : String
  fuel : Nat
  max_fuel : Nat
  cargo_inventory : CargoInventory
  max_cargo_weight : Nat
  fuel_efficiency : ℚ
deriving DecidableEq

/-- Rust `Player::new`: starts with a 2/3 tank (`max_fuel * 2 / 3`, integer
division). -/
def Player.new (starting_money : Nat) (starting_airport : String) (max_fuel : Nat)
    (max_cargo_weight : Nat) (fuel_efficiency : ℚ) : Player :=
  { money := starting_money
    current_airport := starting_airport
    fuel := u32mul max_fuel 2 / 3
    max_fuel := max_fuel
    cargo_inventory := CargoInventory.new
    max_cargo_weight := max_cargo_weight
    fuel_efficiency := fuel_efficiency }

/-- Rust `Player::can_afford`. -/
def Player.can_afford (p : Player) (cost : Nat) : Bool :=
  decide (cost ≤ p.money)

/-- Rust `Player::spend_money`: returns the updated player and the success flag. -/
def Player.spend_money (p : Player) (amount : Nat) : Player × Bool :=
  if p.can_afford amount then ({ p with money := p.money - amount }, true)
  else (p, false)

/-- Rust `Player::earn_money`. -/
def Player.earn_money (p : Player) (amount : Nat) : Player :=
  { p with money := u32add p.money amount }

/-- Rust `Player::can_carry_more_weight`. -/
def Player.can_carry_more_weight (p : Player) (additional_weight : Nat)
    (cargo_types : List (String × CargoType)) : Bool :=
  decide (u32add (p.cargo_inventory.total_weight cargo_types) additional_weight
    ≤ p.max_cargo_weight)

/-- Rust `Player::consume_fuel`: returns the updated player and the success flag. -/
def Player.consume_fuel (p : Player) (amount : Nat) : Player × Bool :=
  if amount ≤ p.fuel then ({ p with fuel := p.fuel - amount }, true)
  else (p, false)

/-- Rust `Player::add_fuel`: `fuel = min(fuel + amount, max_fuel)`. -/
def Player.add_fuel (p : Player) (amount : Nat) : Player :=
  { p with fuel := min (u32add p.fuel amount) p.max_fuel }

/-- Rust `Player::fuel_needed_for_distance`:
`(distance / fuel_efficiency).ceil() as u32` — the float-to-int cast
saturates, so negative results clamp to 0 (`Int.toNat`) and results above
`u32::MAX` clamp to `2^32 - 1`. -/
def Player.fuel_needed_for_distance (p : Player) (distance : ℚ) : Nat :=
  min (Int.toNat ⌈distance / p.fuel_efficiency⌉) (U32 - 1)

/-- Rust `Player::can_travel_distance`. -/
def Player.can_travel_distance (p : Player) (distance : ℚ) : Bool :=
  decide (p.fuel_needed_for_distance distance ≤ p.fuel)

/-! ## `src/models/message_board.rs` -/

/-- Rust `Message`; `id` (a `Uuid::new_v4`) is a `Nat` supplied by the caller,
`created_at` is `Int` seconds. -/
structure Message where
  id : Nat
  author_id : Nat
  author_name : String
  content : String
  airport_id : String
  created_at : Int
deriving DecidableEq

/-- Rust `MessageBoard`. -/
structure MessageBoard where
  messages : List Message
  max_messages : Nat
deriving DecidableEq

/-- Rust `MessageBoard::new`. -/
def MessageBoard.new (max_messages : Nat) : MessageBoard :=
  { messages := [], max_messages := max_messages }

/-- Rust `MessageBoard::post_message`: rejects empty or over-500-byte content
(`content.len()` is the UTF-8 byte length), appends the message, then drains
the oldest entries down to `max_messages` when over capacity. The fresh
message id and the timestamp are inputs. -/
def MessageBoard.post_message (b : MessageBoard) (id : Nat) (author_id : Nat)
    (author_name : String) (content : String) (airport_id : String) (now : Int) :
    Except String (Message × MessageBoard) :=
  if content.utf8ByteSize = 0 then
    .error "Message content cannot be empty"
  else if 500 < content.utf8ByteSize then
    .error "Message content cannot exceed 500 characters"
  else
    let message : Message :=
      { id := id, author_id := author_id, author_name := author_name
        content := content, airport_id := airport_id, created_at := now }
    let messages := b.messages ++ [message]
    let messages :=
      if b.max_messages < messages.length then
        messages.drop (messages.length - b.max_messages)
      else messages
    .ok (message, { b with messages := messages })

/-- The board state after one `post_message` call (the board is unchanged
when the post is rejected). -/
def MessageBoard.post_step (b : MessageBoard) (m : Message) : MessageBoard :=
  match b.post_message m.id m.author_id m.author_name m.content m.airport_id m.created_at with
  | .ok (_, b') => b'
  | .error _ => b

/-- The board state after a sequence of `post_message` calls. -/
def MessageBoard.post_all (b : MessageBoard) (posts : List Message) : MessageBoard :=
  posts.foldl MessageBoard.post_step b

/-! ## `src/models/market.rs` -/

/-- Rust `Market` (`last_updated: SystemTime` is environmental and omitted). -/
structure Market where
  airport_id : String
  fuel_price : Nat
  cargo_prices : List (String × Nat)
deriving DecidableEq

/-- Rust `Market::new`. -/
def Market.new (airport_id : String) (fuel_price : Nat) : Market :=
  { airport_id := airport_id, fuel_price := fuel_price, cargo_prices := [] }

/-- Rust `Market::get_cargo_price`. -/
def Market.get_cargo_price (m : Market) (cargo_id : String) : Option Nat :=
  m.cargo_prices.lookup cargo_id

/-! ## `src/models/airport.rs` -/

/-- Rust `Airport`. The floating-point `coordinates` and the Haversine
`distance_to` are not embedded; `distance_to` appears in `player_travel` as
an explicit function parameter `dist : Airport → Airport → ℚ`. -/
structure Airport where
  id : String
  name : String
  base_fuel_price : Nat
deriving DecidableEq

/-! ## `src/systems/events.rs` (`GameStatistics`) -/

/-- Rust `GameStatistics`; `distances_traveled: f64` and
`efficiency_score: f32` are modelled as `ℚ`. -/
structure GameStatistics where
  total_revenue : Nat
  total_expenses : Nat
  net_profit : Nat
  cargo_trades : Nat
  fuel_purchased : Nat
  distances_traveled : ℚ
  airports_visited : List String
  best_single_trade : Nat
  most_profitable_cargo : String
  efficiency_score : ℚ
deriving DecidableEq

/-- Rust `GameStatistics::new`. -/
def GameStatistics.new : GameStatistics :=
  { total_revenue := 0, total_expenses := 0, net_profit := 0, cargo_trades := 0
    fuel_purchased := 0, distances_traveled := 0, airports_visited := []
    best_single_trade := 0, most_profitable_cargo := "", efficiency_score := 0 }

/-- Rust `GameStatistics::record_sale`. -/
def GameStatistics.record_sale (st : GameStatistics) (cargo_type : String)
    (revenue : Nat) : GameStatistics :=
  let total_revenue := u32add st.total_revenue revenue
  let st := { st with
    total_revenue := total_revenue
    net_profit := total_revenue - st.total_expenses
    cargo_trades := u32add st.cargo_trades 1 }
  if st.best_single_trade < revenue then
    { st with best_single_trade := revenue, most_profitable_cargo := cargo_type }
  else st

/-- Rust `GameStatistics::record_purchase` (`net_profit` uses `saturating_sub`,
which is `Nat` subtraction). -/
def GameStatistics.record_purchase (st : GameStatistics) (expense : Nat) :
    GameStatistics :=
  let total_expenses := u32add st.total_expenses expense
  { st with
    total_expenses := total_expenses
    net_profit := st.total_revenue - total_expenses }

/-- Rust `GameStatistics::record_cargo_purchase`. -/
def GameStatistics.record_cargo_purchase (st : GameStatistics) (expense : Nat) :
    GameStatistics :=
  let st := st.record_purchase expense
  { st with cargo_trades := u32add st.cargo_trades 1 }

/-- Rust `GameStatistics::record_fuel_purchase`. -/
def GameStatistics.record_fuel_purchase (st : GameStatistics) (fuel_amount : Nat)
    (cost : Nat) : GameStatistics :=
  ({ st with fuel_purchased := u32add st.fuel_purchased fuel_amount }).record_purchase cost

/-- Rust `GameStatistics::record_travel`: accumulates the distance and appends the
destination to `airports_visited` unless already present. -/
def GameStatistics.record_travel (st : GameStatistics) (airport : String)
    (distance : ℚ) : GameStatistics :=
  { st with
    distances_traveled := st.distances_traveled + distance
    airports_visited :=
      if st.airports_visited.contains airport then st.airports_visited
      else st.airports_visited ++ [airport] }

/-! ## `src/systems/multiplayer.rs` -/

/-- Rust `GameStatus`. -/
inductive GameStatus
  | WaitingForPlayers
  | InProgress
  | Finished
deriving DecidableEq

/-- Rust `SharedGameState`; the three `HashMap`s are association lists. -/
structure SharedGameState where
  turn_number : Nat
  markets : List (String × Market)
  airports : List (String × Airport)
  cargo_types : List (String × CargoType)
  world_time : Int
  last_market_update : Int
deriving DecidableEq

/-- Rust `PlayerGameState`. -/
structure PlayerGameState where
  player_id : Nat
  player_name : String
  player : Player
  is_online : Bool
  last_seen : Int
  joined_at : Int
deriving DecidableEq

/-- Rust `GameRoom` (the random `id: Uuid` is environmental and omitted). -/
structure GameRoom where
  name : String
  host_player_id : Nat
  max_players : Nat
  created_at : Int
  game_status : GameStatus
  shared_state : SharedGameState
  players : List PlayerGameState
  player_statistics : List (Nat × GameStatistics)
  message_board : MessageBoard
deriving DecidableEq

/-- Rust `GameRoom::new`: seeds one `Market` per airport (fuel price 50, cargo
prices at base price), places the host at `"JFK"` with the fixed starting
loadout `Player::new(5000, "JFK", 200, 1000, 15.0)`, and creates a
50-message board. -/
def GameRoom.new (name : String) (host_player_id : Nat) (host_player_name : String)
    (max_players : Nat) (airports : List (String × Airport))
    (cargo_types : List (String × CargoType)) (now : Int) : GameRoom :=
  let markets := airports.map (fun a =>
    (a.1, { airport_id := a.1, fuel_price := 50
            cargo_prices := cargo_types.map (fun c => (c.1, c.2.base_price)) : Market }))
  let host_player := Player.new 5000 "JFK" 200 1000 15
  { name := name
    host_player_id := host_player_id
    max_players := max_players
    created_at := now
    game_status := .WaitingForPlayers
    shared_state :=
      { turn_number := 1, markets := markets, airports := airports
        cargo_types := cargo_types, world_time := now, last_market_update := now }
    players := [{ player_id := host_player_id, player_name := host_player_name
                  player := host_player, is_online := true
                  last_seen := now, joined_at := now }]
    player_statistics := [(host_player_id, GameStatistics.new)]
    message_board := MessageBoard.new 50 }

/-- The count of online players:
`players.values().filter(|p| p.is_online).count()`. -/
def GameRoom.online_count (room : GameRoom) : Nat :=
  (room.players.filter (fun p => p.is_online)).length

/-- The name-scan loop of `GameRoom::add_player`: walks the players, and at
the first name match either yields the match's id (offline, or online but
stale — last seen more than 5 seconds ago) or rejects (online and fresh). -/
def GameRoom.scan_name (now : Int) (player_name : String) :
    List PlayerGameState → Except String (Option Nat)
  | [] => .ok none
  | p :: rest =>
    if p.player_name = player_name then
      if p.is_online then
        if 5 < now - p.last_seen then .ok (some p.player_id)
        else .error "Player name already taken in this room"
      else .ok (some p.player_id)
    else GameRoom.scan_name now player_name rest

/-- Rust `GameRoom::add_player`: rejects when the online count has reached
`max_players`, otherwise scans for a rejoinable name match (reusing that
player's id, flipping it online and refreshing `last_seen`), otherwise
inserts a fresh player (rejecting a duplicate requested id) with
`Player::new(5000, starting_airport.unwrap_or("JFK"), 200, 1000, 15.0)`
and fresh statistics. -/
def GameRoom.add_player (room : GameRoom) (player_id : Nat) (player_name : String)
    (starting_airport : Option String) (now : Int) : Except String (Nat × GameRoom) :=
  if room.max_players ≤ room.online_count then .error "Room is full"
  else
    match GameRoom.scan_name now player_name room.players with
    | .error e => .error e
    | .ok (some existing_id) =>
      .ok (existing_id,
        { room with players := room.players.map (fun p =>
            if p.player_id = existing_id then
              { p with is_online := true, last_seen := now }
            else p) })
    | .ok none =>
      if room.players.any (fun p => p.player_id = player_id) then
        .error "Player already in room"
      else
        let starting_airport := starting_airport.getD "JFK"
        let player := Player.new 5000 starting_airport 200 1000 15
        .ok (player_id,
          { room with
            players := room.players ++
              [{ player_id := player_id, player_name := player_name
                 player := player, is_online := true
                 last_seen := now, joined_at := now }]
            player_statistics := room.player_statistics ++
              [(player_id, GameStatistics.new)] })

/-- Rust `GameRoom::get_player`. -/
def GameRoom.get_player (room : GameRoom) (player_id : Nat) : Option PlayerGameState :=
  room.players.find? (fun p => p.player_id = player_id)

/-- Rust `GameRoom::get_current_market`. -/
def GameRoom.get_current_market (room : GameRoom) (airport_id : String) : Option Market :=
  room.shared_state.markets.lookup airport_id

/-- Rust `GameRoom::advance_turn`: bumps the turn counter (a `u32`) and refreshes
the world clock. -/
def GameRoom.advance_turn (room : GameRoom) (now : Int) : GameRoom :=
  { room with shared_state :=
    { room.shared_state with
      turn_number := u32add room.shared_state.turn_number 1
      world_time := now } }

/-- Rust `GameRoom::is_joinable`. -/
def GameRoom.is_joinable (room : GameRoom) : Bool :=
  (match room.game_status with
   | .WaitingForPlayers => true
   | _ => false)
  && decide (room.online_count < room.max_players)

/-- The effect of `get_player_mut(id)` followed by mutating the embedded
`Player`: only the entry with the given id is touched. -/
def GameRoom.update_player (room : GameRoom) (player_id : Nat) (f : Player → Player) :
    GameRoom :=
  { room with players := room.players.map (fun p =>
      if p.player_id = player_id then { p with player := f p.player } else p) }

/-- The effect of `if let Some(stats) = player_statistics.get_mut(&id)`:
updates the entry when present, does nothing otherwise. -/
def GameRoom.update_stats (room : GameRoom) (player_id : Nat)
    (f : GameStatistics → GameStatistics) : GameRoom :=
  { room with player_statistics := room.player_statistics.map (fun s =>
      if s.1 = player_id then (s.1, f s.2) else s) }

/-! ## `src/api/models.rs` (request and response DTOs) -/

/-- Rust `TradeAction`. -/
inductive TradeAction
  | Buy
  | Sell
deriving DecidableEq

/-- Rust `TradeRequest`. -/
structure TradeRequest where
  cargo_type : String
  quantity : Nat
  action : TradeAction
deriving DecidableEq

/-- Rust `FuelRequest`. -/
structure FuelRequest where
  quantity : Nat
deriving DecidableEq

/-- Rust `JoinRoomResponse`. -/
structure JoinRoomResponse where
  room_id : Nat
  player_id : Nat
  player_name : String
  success : Bool
  message : String
deriving DecidableEq

/-- Rust `PlayerTravelResponse`. -/
structure PlayerTravelResponse where
  success : Bool
  message : String
  fuel_consumed : Option Nat
  new_location : Option String
deriving DecidableEq

/-- Rust `PlayerTradeResponse`; `new_inventory: Option<HashMap<String, u32>>` is
an association list. -/
structure PlayerTradeResponse where
  success : Bool
  message : String
  transaction_amount : Option Nat
  new_money : Option Nat
  new_inventory : Option (List (String × Nat))
deriving DecidableEq

/-- Rust `PlayerFuelResponse`. -/
structure PlayerFuelResponse where
  success : Bool
  message : String
  cost : Option Nat
  new_fuel : Option Nat
  new_money : Option Nat
deriving DecidableEq

/-- Rust `PostMessageResponse`. -/
structure PostMessageResponse where
  success : Bool
  message : String
  message_id : Option Nat
deriving DecidableEq

/-! ## `src/api/multiplayer_service.rs`

The registry `rooms: HashMap<Uuid, GameRoom>` is an association list; the
effect of mutating a room through `rooms.get_mut(&room_id)` is replacing
that entry. Each service function returns the updated registry together with
the response DTO; `Err` is the structural lookup-error channel (mapped to
HTTP 400 by `multiplayer_handlers.rs`). Database writes and the player
session registry are environmental side effects outside the embedded
state. -/

/-- Registry update through `rooms.get_mut(&room_id)`. -/
def set_room (rooms : List (Nat × GameRoom)) (room_id : Nat) (room : GameRoom) :
    List (Nat × GameRoom) :=
  rooms.map (fun r => if r.1 = room_id then (r.1, room) else r)

namespace MultiplayerGameService

/-- Rust `MultiplayerGameService::build_inventory_map`: the six known cargo ids
with positive held quantity. -/
def build_inventory_map (player : Player) : List (String × Nat) :=
  ["electronics", "food", "textiles", "industrial", "luxury", "materials"].filterMap
    (fun cargo_id =>
      let qty := player.cargo_inventory.get_quantity cargo_id
      if 0 < qty then some (cargo_id, qty) else none)

/-- Rust `MultiplayerGameService::join_room`: structural failures (`Room not
found`, `Room is not joinable`, and every `add_player` rejection, which `?`
propagates) go to the error channel; only a completed join produces a
response, with `success = true`. The fresh `Uuid::new_v4` requested id and
the clock are inputs. -/
def join_room (rooms : List (Nat × GameRoom)) (room_id : Nat) (new_player_id : Nat)
    (player_name : String) (starting_airport : Option String) (now : Int) :
    Except String (List (Nat × GameRoom) × JoinRoomResponse) :=
  match rooms.lookup room_id with
  | none => .error "Room not found"
  | some room =>
    if ¬ room.is_joinable then .error "Room is not joinable"
    else
      match room.add_player new_player_id player_name starting_airport now with
      | .error e => .error e
      | .ok (actual_player_id, room') =>
        .ok (set_room rooms room_id room',
          { room_id := room_id, player_id := actual_player_id
            player_name := player_name, success := true
            message := "Successfully joined room" })

/-- Rust `MultiplayerGameService::player_travel`. `dist` stands for the
floating-point `Airport::distance_to` (Haversine), which is opaque to this
embedding; `now` is the clock read inside `advance_turn`. -/
def player_travel (dist : Airport → Airport → ℚ) (rooms : List (Nat × GameRoom))
    (room_id : Nat) (player_id : Nat) (destination : String) (now : Int) :
    Except String (List (Nat × GameRoom) × PlayerTravelResponse) :=
  match rooms.lookup room_id with
  | none => .error "Room not found"
  | some room =>
    match room.shared_state.airports.lookup destination with
    | none => .error "Destination airport not found"
    | some destination_airport =>
      match room.get_player player_id with
      | none => .error "Player not found in room"
      | some player_state =>
        match room.shared_state.airports.lookup player_state.player.current_airport with
        | none => .error "Current airport not found"
        | some current_airport =>
          let distance := dist current_airport destination_airport
          let fuel_required := player_state.player.fuel_needed_for_distance distance
          if ¬ player_state.player.can_travel_distance distance then
            .ok (rooms,
              { success := false
                message := "Insufficient fuel. Need " ++ toString fuel_required ++
                  " units, have " ++ toString player_state.player.fuel
                fuel_consumed := none, new_location := none })
          else
            let room := room.update_player player_id (fun p =>
              { (p.consume_fuel fuel_required).1 with current_airport := destination })
            let room := room.update_stats player_id
              (fun st => st.record_travel destination distance)
            let room := room.advance_turn now
            .ok (set_room rooms room_id room,
              { success := true
                message := "Traveled to " ++ destination_airport.name ++
                  " (" ++ destination ++ ")"
                fuel_consumed := some fuel_required
                new_location := some destination })

/-- Rust `MultiplayerGameService::player_trade`. -/
def player_trade (rooms : List (Nat × GameRoom)) (room_id : Nat) (player_id : Nat)
    (request : TradeRequest) :
    Except String (List (Nat × GameRoom) × PlayerTradeResponse) :=
  match rooms.lookup room_id with
  | none => .error "Room not found"
  | some room =>
    match room.get_player player_id with
    | none => .error "Player not found in room"
    | some player_state =>
      match room.get_current_market player_state.player.current_airport with
      | none => .error "No market available at current location"
      | some current_market =>
        match current_market.get_cargo_price request.cargo_type with
        | none => .error "Cargo type not available at this market"
        | some cargo_price =>
          let transaction_amount := u32mul cargo_price request.quantity
          let can_afford := player_state.player.can_afford transaction_amount
          match room.shared_state.cargo_types.lookup request.cargo_type with
          | none => .error "Invalid cargo type"
          | some cargo_type =>
            let cargo_weight_per_unit := cargo_type.weight_per_unit
            let current_cargo_quantity :=
              player_state.player.cargo_inventory.get_quantity request.cargo_type
            match request.action with
            | .Buy =>
              if ¬ can_afford then
                .ok (rooms,
                  { success := false, message := "Insufficient funds"
                    transaction_amount := none, new_money := none
                    new_inventory := none })
              else
                let additional_weight := u32mul cargo_weight_per_unit request.quantity
                if ¬ player_state.player.can_carry_more_weight additional_weight
                    room.shared_state.cargo_types then
                  .ok (rooms,
                    { success := false, message := "Insufficient cargo capacity"
                      transaction_amount := none, new_money := none
                      new_inventory := none })
                else
                  let new_player :=
                    let p := (player_state.player.spend_money transaction_amount).1
                    { p with cargo_inventory :=
                        p.cargo_inventory.add_cargo request.cargo_type request.quantity }
                  let room := room.update_player player_id (fun _ => new_player)
                  let room := room.update_stats player_id
                    (fun st => st.record_cargo_purchase transaction_amount)
                  .ok (set_room rooms room_id room,
                    { success := true
                      message := "Successfully bought " ++ toString request.quantity ++
                        " units of " ++ request.cargo_type
                      transaction_amount := some transaction_amount
                      new_money := some new_player.money
                      new_inventory := some (build_inventory_map new_player) })
            | .Sell =>
              if current_cargo_quantity < request.quantity then
                .ok (rooms,
                  { success := false, message := "Insufficient cargo to sell"
                    transaction_amount := none, new_money := none
                    new_inventory := none })
              else
                let new_player :=
                  let p := { player_state.player with cargo_inventory :=
                    (player_state.player.cargo_inventory.remove_cargo
                      request.cargo_type request.quantity).1 }
                  p.earn_money transaction_amount
                let room := room.update_player player_id (fun _ => new_player)
                let room := room.update_stats player_id
                  (fun st => st.record_sale request.cargo_type transaction_amount)
                .ok (set_room rooms room_id room,
                  { success := true
                    message := "Successfully sold " ++ toString request.quantity ++
                      " units of " ++ request.cargo_type
                    transaction_amount := some transaction_amount
                    new_money := some new_player.money
                    new_inventory := some (build_inventory_map new_player) })

/-- Rust `MultiplayerGameService::player_buy_fuel`: affordability is checked
first, then remaining tank capacity (`max_fuel - fuel`, a `u32`
subtraction) as a hard rejection quoting the exact remaining space. -/
def player_buy_fuel (rooms : List (Nat × GameRoom)) (room_id : Nat) (player_id : Nat)
    (request : FuelRequest) :
    Except String (List (Nat × GameRoom) × PlayerFuelResponse) :=
  match rooms.lookup room_id with
  | none => .error "Room not found"
  | some room =>
    match room.get_player player_id with
    | none => .error "Player not found in room"
    | some player_state =>
      match room.get_current_market player_state.player.current_airport with
      | none => .error "No market available at current location"
      | some current_market =>
        let fuel_cost := u32mul current_market.fuel_price request.quantity
        let space_available := player_state.player.max_fuel - player_state.player.fuel
        if ¬ player_state.player.can_afford fuel_cost then
          .ok (rooms,
            { success := false, message := "Insufficient funds for fuel purchase"
              cost := none, new_fuel := none, new_money := none })
        else if space_available < request.quantity then
          .ok (rooms,
            { success := false
              message := "Fuel tank can only hold " ++ toString space_available ++
                " more units"
              cost := none, new_fuel := none, new_money := none })
        else
          let new_player :=
            ((player_state.player.spend_money fuel_cost).1).add_fuel request.quantity
          let room := room.update_player player_id (fun _ => new_player)
          let room := room.update_stats player_id
            (fun st => st.record_fuel_purchase request.quantity fuel_cost)
          .ok (set_room rooms room_id room,
            { success := true
              message := "Purchased " ++ toString request.quantity ++
                " units of fuel for $" ++ toString fuel_cost
              cost := some fuel_cost
              new_fuel := some new_player.fuel
              new_money := some new_player.money })

/-- Rust `MultiplayerGameService::post_message`: structural failures are the
missing room or player; a board-level validation failure (empty or over-long
content) is converted into an `Ok` response with `success = false` carrying
the board's error text, leaving the board unchanged. -/
def post_message (rooms : List (Nat × GameRoom)) (room_id : Nat) (player_id : Nat)
    (content : String) (msg_id : Nat) (now : Int) :
    Except String (List (Nat × GameRoom) × PostMessageResponse) :=
  match rooms.lookup room_id with
  | none => .error "Room not found"
  | some room =>
    match room.players.find? (fun p => p.player_id = player_id) with
    | none => .error "Player not in this room"
    | some player_state =>
      match room.message_board.post_message msg_id player_id player_state.player_name
          content player_state.player.current_airport now with
      | .ok (message, board') =>
        .ok (set_room rooms room_id { room with message_board := board' },
          { success := true, message := "Message posted successfully"
            message_id := some message.id })
      | .error error =>
        .ok (rooms,
          { success := false, message := error, message_id := none })

end MultiplayerGameService

deriving instance DecidableEq for Except

/-! ## Concrete fixtures (used by witnesses and counterexamples) -/

/-- A one-entry cargo catalog. -/
def cargoCat : List (String × CargoType) :=
  [("food", { id := "food", name := "Food", base_price := 50, weight_per_unit := 10 })]

/-- JFK. -/
def jfkAirport : Airport :=
  { id := "JFK", name := "John F Kennedy Intl", base_fuel_price := 50 }

/-- LAX. -/
def laxAirport : Airport :=
  { id := "LAX", name := "Los Angeles Intl", base_fuel_price := 45 }

/-- A two-airport catalog. -/
def airportsCat : List (String × Airport) :=
  [("JFK", jfkAirport), ("LAX", laxAirport)]

/-- A fresh two-slot room hosted by Alice (player id 1) at time 0. -/
def demoRoom : GameRoom := GameRoom.new "demo" 1 "Alice" 2 airportsCat cargoCat 0

/-- The host entry of `demoRoom`. -/
def demoHost : PlayerGameState :=
  { player_id := 1, player_name := "Alice", player := Player.new 5000 "JFK" 200 1000 15
    is_online := true, last_seen := 0, joined_at := 0 }

/-- A one-slot room whose only slot is held by the online host. -/
def fullRoom : GameRoom := { demoRoom with max_players := 1 }

/-- Alice's player state, online and fresh at time 100. -/
def aliceOnline : PlayerGameState :=
  { player_id := 1, player_name := "Alice", player := Player.new 5000 "JFK" 200 1000 15
    is_online := true, last_seen := 100, joined_at := 0 }

/-- Bob's player state, offline since time 50. -/
def bobOffline : PlayerGameState :=
  { player_id := 2, player_name := "Bob", player := Player.new 5000 "LAX" 200 1000 15
    is_online := false, last_seen := 50, joined_at := 0 }

/-- A one-slot room holding online Alice (fresh at time 100) and offline
Bob: reachable by Bob joining the empty room, leaving, and Alice joining. -/
def staleRoom : GameRoom :=
  { demoRoom with max_players := 1, players := [aliceOnline, bobOffline] }

/-- A two-slot room holding online Alice and offline Bob. -/
def rejoinRoom : GameRoom :=
  { demoRoom with players := [aliceOnline, bobOffline] }

/-- Fixture: `demoRoom` with Alice's fuel at 120 of 200 (80 units of space), matching
the spec's fuel-purchase scenario. -/
def fuelRoom : GameRoom :=
  { demoRoom with players :=
      [{ player_id := 1, player_name := "Alice"
         player := { Player.new 5000 "JFK" 200 1000 15 with fuel := 120 }
         is_online := true, last_seen := 0, joined_at := 0 }] }

/-- Fixture: `fuelRoom` with enough money (20000) to afford any purchase in play. -/
def fuelRoomRich : GameRoom :=
  { demoRoom with players :=
      [{ player_id := 1, player_name := "Alice"
         player := { Player.new 5000 "JFK" 200 1000 15 with money := 20000, fuel := 120 }
         is_online := true, last_seen := 0, joined_at := 0 }] }

/-- The insufficient-funds trade rejection DTO. -/
def rejectTradeResp : PlayerTradeResponse :=
  { success := false, message := "Insufficient funds", transaction_amount := none
    new_money := none, new_inventory := none }

/-- Two valid message-board posts. -/
def msgA : Message :=
  { id := 11, author_id := 1, author_name := "Alice", content := "hello"
    airport_id := "JFK", created_at := 1 }

/-- Second valid post. -/
def msgB : Message :=
  { id := 12, author_id := 1, author_name := "Alice", content := "bye"
    airport_id := "JFK", created_at := 2 }

/-! ## Supporting lemmas: message board -/

/-- An invalid post (empty or over-long content) leaves the board
unchanged. -/
theorem post_step_invalid (b : MessageBoard) (m : Message)
    (h : m.content.utf8ByteSize = 0 ∨ 500 < m.content.utf8ByteSize) :
    b.post_step m = b := by
  unfold MessageBoard.post_step MessageBoard.post_message
  rcases h with h0 | h5
  · rw [if_pos h0]
  · rw [if_neg (by omega), if_pos h5]

/-- A valid `post_message` succeeds with the submitted message. -/
theorem post_message_valid (b : MessageBoard) (m : Message)
    (h0 : m.content.utf8ByteSize ≠ 0) (h5 : m.content.utf8ByteSize ≤ 500) :
    b.post_message m.id m.author_id m.author_name m.content m.airport_id m.created_at =
      .ok (m, { b with messages :=
        if b.max_messages < (b.messages ++ [m]).length then
          (b.messages ++ [m]).drop ((b.messages ++ [m]).length - b.max_messages)
        else b.messages ++ [m] }) := by
  unfold MessageBoard.post_message
  rw [if_neg h0, if_neg (not_lt.mpr h5)]

/-- A valid post appends the message and drops the surplus oldest entries
(`Nat` subtraction makes the no-trim case a `drop 0`). -/
theorem post_step_valid (b : MessageBoard) (m : Message)
    (h0 : m.content.utf8ByteSize ≠ 0) (h5 : m.content.utf8ByteSize ≤ 500) :
    b.post_step m =
      { b with messages :=
          (b.messages ++ [m]).drop (b.messages.length + 1 - b.max_messages) } := by
  unfold MessageBoard.post_step
  rw [post_message_valid b m h0 h5]
  show ({ b with messages :=
      if b.max_messages < (b.messages ++ [m]).length then
        (b.messages ++ [m]).drop ((b.messages ++ [m]).length - b.max_messages)
      else b.messages ++ [m] } : MessageBoard) = _
  rw [List.length_append, List.length_singleton]
  rcases lt_or_le b.max_messages (b.messages.length + 1) with hlt | hle
  · rw [if_pos hlt]
  · rw [if_neg (not_lt.mpr hle)]
    have hz : b.messages.length + 1 - b.max_messages = 0 := by omega
    rw [hz, List.drop_zero]

/-- A `post_message` call never grows a within-capacity board beyond its
capacity. -/
theorem post_step_le (b : MessageBoard) (m : Message)
    (hb : b.messages.length ≤ b.max_messages) :
    (b.post_step m).messages.length ≤ b.max_messages := by
  by_cases h0 : m.content.utf8ByteSize = 0
  · rw [post_step_invalid b m (Or.inl h0)]; exact hb
  by_cases h5 : 500 < m.content.utf8ByteSize
  · rw [post_step_invalid b m (Or.inr h5)]; exact hb
  · rw [post_step_valid b m h0 (not_lt.mp h5)]
    simp only [List.length_drop, List.length_append, List.length_singleton]
    omega

/-- After a sequence of valid posts, the board holds exactly the most recent
`max_messages` entries of "previous contents followed by the posts, in
order". -/
theorem post_all_messages (posts : List Message) :
    ∀ b : MessageBoard, b.messages.length ≤ b.max_messages →
    (∀ m ∈ posts, m.content.utf8ByteSize ≠ 0 ∧ m.content.utf8ByteSize ≤ 500) →
    (b.post_all posts).messages =
      (b.messages ++ posts).drop (b.messages.length + posts.length - b.max_messages) ∧
    (b.post_all posts).max_messages = b.max_messages := by
  induction posts with
  | nil =>
    intro b hb _
    rw [MessageBoard.post_all]
    simp only [List.foldl_nil, List.append_nil, List.length_nil]
    have hz : b.messages.length + 0 - b.max_messages = 0 := by omega
    rw [hz, List.drop_zero]
    constructor <;> trivial
  | cons m rest ih =>
    intro b hb hv
    have hm := hv m (List.mem_cons_self m rest)
    have hstep := post_step_valid b m hm.1 hm.2
    have hfold : b.post_all (m :: rest) = (b.post_step m).post_all rest := by
      rw [MessageBoard.post_all, MessageBoard.post_all, List.foldl_cons]
    have hble : (b.post_step m).messages.length ≤ (b.post_step m).max_messages := by
      rw [hstep]
      simp only [List.length_drop, List.length_append, List.length_singleton]
      omega
    have hrec := ih (b.post_step m) hble (fun x hx => hv x (List.mem_cons_of_mem _ hx))
    rw [hfold, hstep]
    rw [hstep] at hrec
    simp only [List.length_drop, List.length_append, List.length_singleton] at hrec
    refine ⟨?_, hrec.2⟩
    rw [hrec.1]
    have hdle : b.messages.length + 1 - b.max_messages ≤ (b.messages ++ [m]).length := by
      simp only [List.length_append, List.length_singleton]; omega
    rw [← List.drop_append_of_le_length hdle, List.drop_drop]
    rw [List.append_assoc, List.singleton_append]
    congr 1
    simp only [List.length_cons]
    omega

/-! ## Claim C6: message board bound -/

/-- C6: starting from an empty board capped at `N`, after any `N + 1`
accepted posts exactly `N` messages remain and they are the `N` most recent
posts in order (the oldest is evicted); moreover no `post_message` call ever
grows a within-capacity board beyond its capacity. -/
theorem message_board_bound (N : Nat) (posts : List Message)
    (hlen : posts.length = N + 1)
    (hvalid : ∀ m ∈ posts, m.content.utf8ByteSize ≠ 0 ∧ m.content.utf8ByteSize ≤ 500) :
    ((MessageBoard.new N).post_all posts).messages = posts.drop 1 ∧
    ((MessageBoard.new N).post_all posts).messages.length = N ∧
    ∀ (b : MessageBoard) (m : Message), b.messages.length ≤ b.max_messages →
      (b.post_step m).messages.length ≤ b.max_messages := by
  have h := post_all_messages posts (MessageBoard.new N)
    (by simp [MessageBoard.new]) hvalid
  have hmsgs : ((MessageBoard.new N).post_all posts).messages = posts.drop 1 := by
    rw [h.1]
    simp only [MessageBoard.new, List.nil_append, List.length_nil]
    congr 1
    omega
  refine ⟨hmsgs, ?_, fun b m hb => post_step_le b m hb⟩
  rw [hmsgs, List.length_drop, hlen]
  omega

/-- Witness for C6: capacity 1, two accepted posts; the second alone
remains. -/
theorem message_board_bound_witness :
    ((MessageBoard.new 1).post_all [msgA, msgB]).messages = [msgA, msgB].drop 1 :=
  (message_board_bound 1 [msgA, msgB] (by decide) (by decide)).1

/-! ## Claim C3: room fullness counts only online players -/

/-- C3: `add_player` fails with "Room is full" whenever the number of
players with `is_online = true` has reached `max_players` — the count is
taken after `filter is_online`, so offline players never contribute. -/
theorem add_player_full_reject (room : GameRoom) (player_id : Nat)
    (player_name : String) (starting_airport : Option String) (now : Int)
    (h : room.max_players ≤ room.online_count) :
    room.add_player player_id player_name starting_airport now = .error "Room is full" := by
  unfold GameRoom.add_player
  rw [if_pos h]

/-- Witness for C3: a one-slot room with one online host (and so online
count 1) rejects a join as full. -/
theorem add_player_full_reject_witness :
    fullRoom.max_players ≤ fullRoom.online_count ∧
      fullRoom.add_player 7 "Carol" none 100 = .error "Room is full" :=
  ⟨by decide, add_player_full_reject fullRoom 7 "Carol" none 100 (by decide)⟩

/-! ## Supporting lemmas: player lists -/

/-- When no player holds the name, the `add_player` name scan falls
through. -/
theorem scan_name_none (now : Int) (pname : String) (l : List PlayerGameState)
    (h : ∀ p ∈ l, p.player_name ≠ pname) :
    GameRoom.scan_name now pname l = .ok none := by
  induction l with
  | nil => rfl
  | cons p rest ih =>
    rw [GameRoom.scan_name, if_neg (h p (List.mem_cons_self p rest))]
    exact ih (fun q hq => h q (List.mem_cons_of_mem _ hq))

/-- Appending a player whose id is fresh makes it the `find?`-by-id
result. -/
theorem find?_append_new (l : List PlayerGameState) (x : PlayerGameState) (pid : Nat)
    (hx : x.player_id = pid) (h : ∀ p ∈ l, p.player_id ≠ pid) :
    (l ++ [x]).find? (fun p => p.player_id = pid) = some x := by
  induction l with
  | nil =>
    simp only [List.nil_append]
    exact List.find?_cons_of_pos _ (by simp [hx])
  | cons p rest ih =>
    rw [List.cons_append,
      List.find?_cons_of_neg _ (by simp [h p (List.mem_cons_self p rest)])]
    exact ih (fun q hq => h q (List.mem_cons_of_mem _ hq))

/-! ## Claim C9: fuel requirement formula and monotonicity -/

/-- C9: for a player with positive fuel efficiency,
`fuel_needed_for_distance d` equals `⌈d / fuel_efficiency⌉` (as a `Nat`, as
long as that ceiling does not exceed the `u32` saturation bound), and the
requirement is monotonically non-decreasing in the distance. -/
theorem fuel_needed_ceil_monotone (p : Player) (d1 d2 : ℚ)
    (heff : 0 < p.fuel_efficiency) (hle : d1 ≤ d2)
    (hbound : Int.toNat ⌈d1 / p.fuel_efficiency⌉ ≤ U32 - 1) :
    p.fuel_needed_for_distance d1 = Int.toNat ⌈d1 / p.fuel_efficiency⌉ ∧
      p.fuel_needed_for_distance d1 ≤ p.fuel_needed_for_distance d2 := by
  constructor
  · unfold Player.fuel_needed_for_distance
    exact min_eq_left hbound
  · unfold Player.fuel_needed_for_distance
    have hdiv : d1 / p.fuel_efficiency ≤ d2 / p.fuel_efficiency := by
      exact div_le_div_of_nonneg_right hle heff.le
    exact min_le_min (Int.toNat_le_toNat (Int.ceil_le_ceil hdiv)) le_rfl

/-- Witness for C9 at efficiency 15, distances 150 and 151. -/
theorem fuel_needed_ceil_monotone_witness :
    (Player.new 5000 "JFK" 200 1000 15).fuel_needed_for_distance 150 =
        Int.toNat ⌈(150 : ℚ) / (Player.new 5000 "JFK" 200 1000 15).fuel_efficiency⌉ ∧
      (Player.new 5000 "JFK" 200 1000 15).fuel_needed_for_distance 150 ≤
        (Player.new 5000 "JFK" 200 1000 15).fuel_needed_for_distance 151 :=
  fuel_needed_ceil_monotone (Player.new 5000 "JFK" 200 1000 15) 150 151
    (by norm_num [Player.new]) (by norm_num)
    (by norm_num [Player.new, U32])

/-! ## Claim C10: fixed starting loadout of newly minted players -/

/-- C10: the host minted by `GameRoom::new` and a joiner minted on the
new-player path of `add_player` both start with money 5000, max fuel 200,
fuel 133 (two thirds of 200, rounded down), cargo capacity 1000 and fuel
efficiency 15; the host is placed at "JFK" and the joiner at the requested
starting airport, defaulting to "JFK". -/
theorem minted_player_defaults
    (nm : String) (host_id : Nat) (host_name : String) (mp : Nat)
    (airports : List (String × Airport)) (cargo_types : List (String × CargoType))
    (now : Int) (room : GameRoom) (pid : Nat) (pname : String)
    (sa : Option String) (now2 : Int)
    (hfull : room.online_count < room.max_players)
    (hname : ∀ p ∈ room.players, p.player_name ≠ pname)
    (hid : ∀ p ∈ room.players, p.player_id ≠ pid) :
    (∃ hps, (GameRoom.new nm host_id host_name mp airports cargo_types now).get_player host_id
        = some hps ∧
      hps.player.money = 5000 ∧ hps.player.max_fuel = 200 ∧ hps.player.fuel = 133 ∧
      hps.player.max_cargo_weight = 1000 ∧ hps.player.fuel_efficiency = 15 ∧
      hps.player.current_airport = "JFK") ∧
    (∃ room' ps, room.add_player pid pname sa now2 = .ok (pid, room') ∧
      room'.get_player pid = some ps ∧
      ps.player.money = 5000 ∧ ps.player.max_fuel = 200 ∧ ps.player.fuel = 133 ∧
      ps.player.max_cargo_weight = 1000 ∧ ps.player.fuel_efficiency = 15 ∧
      ps.player.current_airport = sa.getD "JFK") := by
  constructor
  · refine ⟨{ player_id := host_id, player_name := host_name
              player := Player.new 5000 "JFK" 200 1000 15
              is_online := true, last_seen := now, joined_at := now },
      ?_, rfl, rfl, rfl, rfl, rfl, rfl⟩
    show (GameRoom.new nm host_id host_name mp airports cargo_types now).players.find? _
      = some _
    unfold GameRoom.new
    exact List.find?_cons_of_pos _ (by simp)
  · have hscan := scan_name_none now2 pname room.players hname
    have hany : room.players.any (fun p => p.player_id = pid) = false := by
      simp only [List.any_eq_false, decide_eq_true_eq]
      exact hid
    refine ⟨{ room with
                players := room.players ++
                  [{ player_id := pid, player_name := pname
                     player := Player.new 5000 (sa.getD "JFK") 200 1000 15
                     is_online := true, last_seen := now2, joined_at := now2 }]
                player_statistics := room.player_statistics ++
                  [(pid, GameStatistics.new)] },
      { player_id := pid, player_name := pname
        player := Player.new 5000 (sa.getD "JFK") 200 1000 15
        is_online := true, last_seen := now2, joined_at := now2 },
      ?_, ?_, rfl, rfl, rfl, rfl, rfl, rfl⟩
    · unfold GameRoom.add_player
      rw [if_neg (not_le.mpr hfull), hscan, hany]
      rfl
    · show (room.players ++
        [({ player_id := pid, player_name := pname
            player := Player.new 5000 (sa.getD "JFK") 200 1000 15
            is_online := true, last_seen := now2
            joined_at := now2 } : PlayerGameState)]).find? _ = some _
      exact find?_append_new room.players _ pid rfl hid

/-- Witness for C10: the host of a fresh room, and Bob joining `demoRoom`
at "LAX". -/
theorem minted_player_defaults_witness :
    (∃ hps, (GameRoom.new "demo" 1 "Alice" 2 airportsCat cargoCat 0).get_player 1
        = some hps ∧
      hps.player.money = 5000 ∧ hps.player.max_fuel = 200 ∧ hps.player.fuel = 133 ∧
      hps.player.max_cargo_weight = 1000 ∧ hps.player.fuel_efficiency = 15 ∧
      hps.player.current_airport = "JFK") ∧
    (∃ room' ps, demoRoom.add_player 5 "Bob" (some "LAX") 7 = .ok (5, room') ∧
      room'.get_player 5 = some ps ∧
      ps.player.money = 5000 ∧ ps.player.max_fuel = 200 ∧ ps.player.fuel = 133 ∧
      ps.player.max_cargo_weight = 1000 ∧ ps.player.fuel_efficiency = 15 ∧
      ps.player.current_airport = (some "LAX").getD "JFK") :=
  minted_player_defaults "demo" 1 "Alice" 2 airportsCat cargoCat 0 demoRoom 5 "Bob"
    (some "LAX") 7 (by decide) (by decide) (by decide)

/-! ## Supporting lemmas: the rejoin path -/

/-- The name scan yields the id of the unique name match when it is offline
or stale. -/
theorem scan_name_found (now : Int) (pname : String) (l : List PlayerGameState)
    (ps : PlayerGameState)
    (hpair : l.Pairwise (fun a b => a.player_name ≠ b.player_name))
    (hmem : ps ∈ l) (hname : ps.player_name = pname)
    (havail : ps.is_online = false ∨ 5 < now - ps.last_seen) :
    GameRoom.scan_name now pname l = .ok (some ps.player_id) := by
  induction l with
  | nil => cases hmem
  | cons p rest ih =>
    rcases List.pairwise_cons.mp hpair with ⟨hp, hrest⟩
    rcases List.mem_cons.mp hmem with heq | hmem'
    · subst heq
      rw [GameRoom.scan_name, if_pos hname]
      rcases havail with hoff | hstale
      · rw [hoff]
        rfl
      · cases hon : ps.is_online
        · rfl
        · rw [if_pos rfl, if_pos hstale]
    · have hpn : p.player_name ≠ pname := by
        intro hcontra
        exact hp ps hmem' (hcontra.trans hname.symm)
      rw [GameRoom.scan_name, if_neg hpn]
      exact ih hrest hmem'

/-- Re-finding a member by id after the rejoin update, assuming the
`HashMap` key-uniqueness invariant. -/
theorem find?_update_mem (l : List PlayerGameState) (ps : PlayerGameState) (now : Int)
    (hmem : ps ∈ l) (hnd : (l.map PlayerGameState.player_id).Nodup) :
    (l.map (fun p => if p.player_id = ps.player_id then
        { p with is_online := true, last_seen := now } else p)).find?
      (fun p => p.player_id = ps.player_id)
    = some { ps with is_online := true, last_seen := now } := by
  induction l with
  | nil => cases hmem
  | cons p rest ih =>
    have hnd' : (∀ x ∈ rest, ¬ x.player_id = p.player_id) ∧
        (rest.map PlayerGameState.player_id).Nodup := by simpa using hnd
    rcases hnd' with ⟨hpid, hrest⟩
    rcases List.mem_cons.mp hmem with heq | hmem'
    · subst heq
      rw [List.map_cons, if_pos rfl]
      exact List.find?_cons_of_pos _ (by simp)
    · have hne : p.player_id ≠ ps.player_id := by
        intro hcontra
        exact hpid ps hmem' hcontra.symm
      rw [List.map_cons, if_neg hne, List.find?_cons_of_neg _ (by simp [hne])]
      exact ih hmem' hrest

/-- The name scan rejects when the unique name match is online and fresh
(last seen at most 5 seconds ago). -/
theorem scan_name_fresh (now : Int) (pname : String) (l : List PlayerGameState)
    (ps : PlayerGameState)
    (hpair : l.Pairwise (fun a b => a.player_name ≠ b.player_name))
    (hmem : ps ∈ l) (hname : ps.player_name = pname)
    (hon : ps.is_online = true) (hfresh : now - ps.last_seen ≤ 5) :
    GameRoom.scan_name now pname l
      = .error "Player name already taken in this room" := by
  induction l with
  | nil => cases hmem
  | cons p rest ih =>
    rcases List.pairwise_cons.mp hpair with ⟨hp, hrest⟩
    rcases List.mem_cons.mp hmem with heq | hmem'
    · subst heq
      rw [GameRoom.scan_name, if_pos hname, hon, if_pos rfl,
        if_neg (not_lt.mpr hfresh)]
    · have hpn : p.player_name ≠ pname := by
        intro hcontra
        exact hp ps hmem' (hcontra.trans hname.symm)
      rw [GameRoom.scan_name, if_neg hpn]
      exact ih hrest hmem'

/-! ## Claim C1: rejoin semantics of `add_player` -/

/-- Counterexample to C1 as frozen: in `staleRoom` (capacity 1, Alice online
and fresh, Bob offline) some existing player named "Bob" is offline, yet
`add_player` rejects the rejoin with "Room is full" instead of returning
`Ok` — the fullness check runs before the rejoin scan. -/
theorem add_player_rejoin_counterexample :
    (staleRoom.players.any (fun p => p.player_name = "Bob" && !p.is_online)) = true ∧
      staleRoom.add_player 7 "Bob" none 100 = .error "Room is full" :=
  ⟨by decide, by decide⟩

/-- C1 (amended): provided the online-player count is still below
`max_players`, a caller whose name matches an existing player that is
offline — or online but last seen more than 5 seconds ago — gets `Ok` with
that player's existing identifier (not the requested one); that player is
flipped online with a refreshed `last_seen`, while its name, `joined_at`,
money, fuel and cargo inventory are untouched. Names are assumed pairwise
distinct and ids unique (`HashMap` key invariant / `add_player`'s own
invariant). -/
theorem add_player_rejoin (room : GameRoom) (player_id : Nat) (player_name : String)
    (sa : Option String) (now : Int) (ps : PlayerGameState)
    (hfull : room.online_count < room.max_players)
    (hnames : room.players.Pairwise (fun a b => a.player_name ≠ b.player_name))
    (hids : (room.players.map PlayerGameState.player_id).Nodup)
    (hmem : ps ∈ room.players)
    (hname : ps.player_name = player_name) :
    ((ps.is_online = false ∨ 5 < now - ps.last_seen) →
      ∃ room', room.add_player player_id player_name sa now = .ok (ps.player_id, room') ∧
        room'.get_player ps.player_id
          = some { ps with is_online := true, last_seen := now }) ∧
    (ps.is_online = true → now - ps.last_seen ≤ 5 →
      room.add_player player_id player_name sa now
        = .error "Player name already taken in this room") := by
  constructor
  · intro havail
    have hscan := scan_name_found now player_name room.players ps hnames hmem hname havail
    refine ⟨{ room with players := room.players.map (fun p =>
        if p.player_id = ps.player_id then
          { p with is_online := true, last_seen := now }
        else p) }, ?_, ?_⟩
    · unfold GameRoom.add_player
      rw [if_neg (not_le.mpr hfull), hscan]
    · show (room.players.map _).find? _ = some _
      exact find?_update_mem room.players ps now hmem hids
  · intro hon hfresh
    have hscan :=
      scan_name_fresh now player_name room.players ps hnames hmem hname hon hfresh
    unfold GameRoom.add_player
    rw [if_neg (not_le.mpr hfull), hscan]

/-- Witness for C1 (amended): Bob rejoins the two-slot `rejoinRoom` and gets
back id 2 with his state preserved, while a second "Alice" one second after
Alice's last activity is rejected as a fresh duplicate. -/
theorem add_player_rejoin_witness :
    (∃ room', rejoinRoom.add_player 7 "Bob" none 100
        = .ok (bobOffline.player_id, room') ∧
      room'.get_player bobOffline.player_id
        = some { bobOffline with is_online := true, last_seen := 100 }) ∧
      rejoinRoom.add_player 8 "Alice" none 101
        = .error "Player name already taken in this room" :=
  ⟨(add_player_rejoin rejoinRoom 7 "Bob" none 100 bobOffline (by decide) (by decide)
      (by decide) (by decide) (by decide)).1 (Or.inl (by decide)),
   (add_player_rejoin rejoinRoom 8 "Alice" none 101 aliceOnline (by decide) (by decide)
      (by decide) (by decide) (by decide)).2 (by decide) (by decide)⟩

/-! ## Claim C7: how `join_room` surfaces business rejections -/

/-- Counterexample to C7 as frozen: joining the full `fullRoom` does not
produce a response with `success = false` — the rejection comes back on the
error channel, as "Room is not joinable". -/
theorem join_room_reject_counterexample :
    fullRoom.online_count = fullRoom.max_players ∧
      MultiplayerGameService.join_room [(0, fullRoom)] 0 99 "Carol" none 100
        = .error "Room is not joinable" :=
  ⟨by decide, by decide⟩

/-- C7 (amended): `join_room` surfaces both rejection families through the
error channel, not as `success = false` responses: a non-joinable room
(full, or no longer waiting for players) yields the error "Room is not
joinable", and any `add_player` rejection (such as a fresh name clash) is
propagated verbatim as an error. -/
theorem join_room_rejections_error_channel
    (rooms : List (Nat × GameRoom)) (room_id new_player_id : Nat)
    (player_name : String) (sa : Option String) (now : Int) (room : GameRoom)
    (hroom : rooms.lookup room_id = some room) :
    (room.is_joinable = false →
      MultiplayerGameService.join_room rooms room_id new_player_id player_name sa now
        = .error "Room is not joinable") ∧
    (∀ e, room.is_joinable = true →
      room.add_player new_player_id player_name sa now = .error e →
      MultiplayerGameService.join_room rooms room_id new_player_id player_name sa now
        = .error e) := by
  constructor
  · intro hj
    unfold MultiplayerGameService.join_room
    rw [hroom]
    show (if ¬ room.is_joinable then _ else _) = _
    rw [hj]
    rfl
  · intro e hj hadd
    unfold MultiplayerGameService.join_room
    rw [hroom]
    show (if ¬ room.is_joinable then _ else _) = _
    rw [hj, if_neg (by simp), hadd]

/-- Witness for C7 (amended): the full room gives the "Room is not
joinable" error, and a fresh-name clash in `demoRoom` propagates the
`add_player` error. -/
theorem join_room_rejections_error_channel_witness :
    (MultiplayerGameService.join_room [(0, fullRoom)] 0 41 "Dana" none 100
        = .error "Room is not joinable") ∧
      MultiplayerGameService.join_room [(0, rejoinRoom)] 0 42 "Alice" none 101
        = .error "Player name already taken in this room" :=
  ⟨(join_room_rejections_error_channel [(0, fullRoom)] 0 41 "Dana" none 100
      fullRoom (by decide)).1 (by decide),
   (join_room_rejections_error_channel [(0, rejoinRoom)] 0 42 "Alice" none 101
      rejoinRoom (by decide)).2 "Player name already taken in this room"
      (by decide) (by decide)⟩

/-! ## Claim C8: how `post_message` surfaces content rejections -/

/-- Counterexample to C8 as frozen: posting empty content is not rejected on
the error channel — the service converts the board's validation error into
an `Ok` response with `success = false` (the registry, and so the board, is
unchanged). -/
theorem post_message_reject_counterexample :
    MultiplayerGameService.post_message [(0, demoRoom)] 0 1 "" 9 3
      = .ok ([(0, demoRoom)],
        { success := false, message := "Message content cannot be empty",
          message_id := none }) := by
  decide

/-- C8 (amended): a post whose content is empty or longer than 500 bytes is
rejected as an `Ok` response with `success = false` carrying the board's
validation message — not on the error channel — and no message is added
(the registry is returned unchanged). -/
theorem post_message_invalid_rejected_in_band
    (rooms : List (Nat × GameRoom)) (room_id player_id : Nat) (content : String)
    (msg_id : Nat) (now : Int) (room : GameRoom) (ps : PlayerGameState)
    (hroom : rooms.lookup room_id = some room)
    (hps : room.players.find? (fun p => p.player_id = player_id) = some ps) :
    (content.utf8ByteSize = 0 →
      MultiplayerGameService.post_message rooms room_id player_id content msg_id now
        = .ok (rooms,
          { success := false, message := "Message content cannot be empty",
            message_id := none })) ∧
    (content.utf8ByteSize ≠ 0 → 500 < content.utf8ByteSize →
      MultiplayerGameService.post_message rooms room_id player_id content msg_id now
        = .ok (rooms,
          { success := false,
            message := "Message content cannot exceed 500 characters",
            message_id := none })) := by
  constructor
  · intro h0
    simp only [MultiplayerGameService.post_message, hroom, hps,
      MessageBoard.post_message]
    rw [if_pos h0]
  · intro h0 h5
    simp only [MultiplayerGameService.post_message, hroom, hps,
      MessageBoard.post_message]
    rw [if_neg h0, if_pos h5]

set_option maxRecDepth 8192 in
/-- Witness for C8 (amended): in `rejoinRoom`, an empty post and a 501-byte
post (167 three-byte characters — the limit is in bytes) both come back as
`success = false` responses. -/
theorem post_message_invalid_rejected_in_band_witness :
    (MultiplayerGameService.post_message [(0, rejoinRoom)] 0 1 "" 10 4
        = .ok ([(0, rejoinRoom)],
          { success := false, message := "Message content cannot be empty",
            message_id := none })) ∧
      MultiplayerGameService.post_message [(0, rejoinRoom)] 0 1
          (String.mk (List.replicate 167 '€')) 10 4
        = .ok ([(0, rejoinRoom)],
          { success := false,
            message := "Message content cannot exceed 500 characters",
            message_id := none }) :=
  ⟨(post_message_invalid_rejected_in_band [(0, rejoinRoom)] 0 1 "" 10 4 rejoinRoom
      aliceOnline (by decide) (by decide)).1 (by decide),
   (post_message_invalid_rejected_in_band [(0, rejoinRoom)] 0 1
      (String.mk (List.replicate 167 '€')) 10 4 rejoinRoom aliceOnline
      (by decide) (by decide)).2 (by decide) (by decide)⟩

/-! ## Claim C5: fuel purchases beyond tank capacity -/

/-- Counterexample to C5 as frozen (the spec's own scenario): money 5000,
fuel price 50, quantity 200, remaining capacity 80. The cost 10000 exceeds
the money, and the affordability check runs first, so the response message
is "Insufficient funds for fuel purchase" — it does not state the remaining
capacity as the claim requires. -/
theorem buy_fuel_capacity_counterexample :
    (fuelRoom.players.any (fun p =>
        p.player_id = 1 && decide (p.player.max_fuel - p.player.fuel < 200))) = true ∧
      MultiplayerGameService.player_buy_fuel [(0, fuelRoom)] 0 1 { quantity := 200 }
        = .ok ([(0, fuelRoom)],
          { success := false, message := "Insufficient funds for fuel purchase"
            cost := none, new_fuel := none, new_money := none }) ∧
      "Insufficient funds for fuel purchase" ≠ "Fuel tank can only hold 80 more units" :=
  ⟨by decide, by decide, by decide⟩

/-- C5 (amended): when the requested quantity exceeds the remaining tank
capacity AND the player can afford the quoted cost, `player_buy_fuel`
hard-rejects with `success = false`, a message quoting the exact remaining
capacity, and an unchanged registry (money and fuel untouched); when the
player cannot afford the cost, the insufficient-funds rejection takes
precedence. -/
theorem buy_fuel_capacity_hard_reject
    (rooms : List (Nat × GameRoom)) (room_id player_id : Nat) (request : FuelRequest)
    (room : GameRoom) (ps : PlayerGameState) (market : Market)
    (hroom : rooms.lookup room_id = some room)
    (hps : room.get_player player_id = some ps)
    (hmkt : room.get_current_market ps.player.current_airport = some market)
    (haff : ps.player.can_afford (u32mul market.fuel_price request.quantity) = true)
    (hover : ps.player.max_fuel - ps.player.fuel < request.quantity) :
    MultiplayerGameService.player_buy_fuel rooms room_id player_id request
      = .ok (rooms,
        { success := false
          message := "Fuel tank can only hold " ++
            toString (ps.player.max_fuel - ps.player.fuel) ++ " more units"
          cost := none, new_fuel := none, new_money := none }) := by
  simp only [MultiplayerGameService.player_buy_fuel, hroom, hps, hmkt]
  rw [haff]
  rw [if_neg (by simp), if_pos hover]

/-- Witness for C5 (amended): with money 20000 the cost 10000 is affordable,
so quantity 200 against capacity 80 yields the exact-capacity message. -/
theorem buy_fuel_capacity_hard_reject_witness :
    MultiplayerGameService.player_buy_fuel [(0, fuelRoomRich)] 0 1 { quantity := 200 }
      = .ok ([(0, fuelRoomRich)],
        { success := false
          message := "Fuel tank can only hold " ++ toString (200 - 120) ++ " more units"
          cost := none, new_fuel := none, new_money := none }) :=
  buy_fuel_capacity_hard_reject [(0, fuelRoomRich)] 0 1 { quantity := 200 }
    fuelRoomRich
    { player_id := 1, player_name := "Alice"
      player := { Player.new 5000 "JFK" 200 1000 15 with money := 20000, fuel := 120 }
      is_online := true, last_seen := 0, joined_at := 0 }
    { airport_id := "JFK", fuel_price := 50, cargo_prices := [("food", 50)] }
    (by decide) (by decide) (by decide) (by decide) (by decide)

/-! ## Claim C2: rejected trades leave state untouched -/

/-- C2: whenever `player_trade` completes with a `success = false` response
(insufficient funds, insufficient cargo capacity, or insufficient cargo to
sell), the registry — and with it every player's money, fuel and cargo
inventory — is returned exactly as it was. -/
theorem player_trade_reject_atomic
    (rooms rooms' : List (Nat × GameRoom)) (room_id player_id : Nat)
    (request : TradeRequest) (resp : PlayerTradeResponse)
    (h : MultiplayerGameService.player_trade rooms room_id player_id request
      = .ok (rooms', resp))
    (hfail : resp.success = false) :
    rooms' = rooms := by
  unfold MultiplayerGameService.player_trade at h
  repeat' split at h
  all_goals try (dsimp only at h)
  all_goals try (repeat' split at h)
  all_goals
    first
      | (rw [Except.ok.injEq, Prod.mk.injEq] at h
         obtain ⟨h1, h2⟩ := h
         subst h2
         first
           | exact h1.symm
           | simp at hfail)
      | simp_all

/-- Witness for C2: the "Insufficient funds" rejection of a 1000-unit buy in
`demoRoom` returns the registry unchanged. -/
theorem player_trade_reject_atomic_witness :
    ([(0, demoRoom)] : List (Nat × GameRoom)) = [(0, demoRoom)] :=
  player_trade_reject_atomic [(0, demoRoom)] [(0, demoRoom)] 0 1
    { cargo_type := "food", quantity := 1000, action := .Buy } rejectTradeResp
    (by decide) (by decide)

/-! ## Supporting lemmas: registry and per-player updates -/

/-- Writing a room back through `set_room` is observed by a later lookup. -/
theorem lookup_set_room (rooms : List (Nat × GameRoom)) (rid : Nat) (room r' : GameRoom)
    (h : rooms.lookup rid = some room) :
    (set_room rooms rid r').lookup rid = some r' := by
  induction rooms with
  | nil => simp [List.lookup] at h
  | cons s rest ih =>
    obtain ⟨k, v⟩ := s
    simp only [set_room, List.map_cons] at *
    by_cases hk : k = rid
    · subst hk
      rw [if_pos rfl]
      simp [List.lookup_cons]
    · rw [if_neg hk]
      have h' : rest.lookup rid = some room := by
        simpa [List.lookup_cons, beq_false_of_ne (Ne.symm hk)] using h
      simpa [List.lookup_cons, beq_false_of_ne (Ne.symm hk)] using ih h'

/-- Lemma: `get_player` observes the per-player update applied through
`get_player_mut`: the first id match is rewritten in place. -/
theorem find?_map_player_update (l : List PlayerGameState) (pid : Nat)
    (f : Player → Player) (ps : PlayerGameState)
    (h : l.find? (fun p => p.player_id = pid) = some ps) :
    (l.map (fun p => if p.player_id = pid then { p with player := f p.player } else p)).find?
      (fun p => p.player_id = pid) = some { ps with player := f ps.player } := by
  induction l with
  | nil => simp [List.find?] at h
  | cons p rest ih =>
    by_cases hp : p.player_id = pid
    · rw [List.find?_cons_of_pos _ (by simp [hp])] at h
      injection h with h
      subst h
      rw [List.map_cons, if_pos hp]
      exact List.find?_cons_of_pos _ (by simp [hp])
    · rw [List.find?_cons_of_neg _ (by simp [hp])] at h
      rw [List.map_cons, if_neg hp, List.find?_cons_of_neg _ (by simp [hp])]
      exact ih h

/-- Lemma: `player_statistics.lookup` observes the in-place statistics update. -/
theorem lookup_map_stats_update (l : List (Nat × GameStatistics)) (k : Nat)
    (f : GameStatistics → GameStatistics) (v : GameStatistics)
    (h : l.lookup k = some v) :
    (l.map (fun s => if s.1 = k then (s.1, f s.2) else s)).lookup k = some (f v) := by
  induction l with
  | nil => simp [List.lookup] at h
  | cons s rest ih =>
    obtain ⟨k', v'⟩ := s
    simp only [List.map_cons]
    by_cases hk : k' = k
    · subst hk
      rw [if_pos rfl]
      have hv : v' = v := by simpa [List.lookup_cons] using h
      subst hv
      simp [List.lookup_cons]
    · rw [if_neg hk]
      have h' : rest.lookup k = some v := by
        simpa [List.lookup_cons, beq_false_of_ne (Ne.symm hk)] using h
      simpa [List.lookup_cons, beq_false_of_ne (Ne.symm hk)] using ih h'

/-! ## Claim C4: travel fuel accounting, rejection, and turn advancement -/

/-- C4: for a travel request that resolves its room, destination, player,
current airport and statistics record: when the fuel requirement
(`fuel_needed_for_distance`, i.e. the saturated `⌈distance / efficiency⌉`)
fits the tank, travel succeeds, fuel drops by exactly that requirement, the
player relocates to the destination, the statistics accumulate the distance
and record the destination airport deduplicated, and the shared turn counter
advances by one (`u32` wrap excluded by `hturn`); when the requirement
exceeds the fuel, the response has `success = false` and the registry is
returned unchanged. -/
theorem player_travel_spec
    (dist : Airport → Airport → ℚ) (rooms : List (Nat × GameRoom))
    (room_id player_id : Nat) (destination : String) (now : Int)
    (room : GameRoom) (destAp curAp : Airport) (ps : PlayerGameState)
    (st : GameStatistics)
    (hroom : rooms.lookup room_id = some room)
    (hdest : room.shared_state.airports.lookup destination = some destAp)
    (hps : room.get_player player_id = some ps)
    (hcur : room.shared_state.airports.lookup ps.player.current_airport = some curAp)
    (hst : room.player_statistics.lookup player_id = some st)
    (hturn : room.shared_state.turn_number + 1 < U32) :
    (ps.player.fuel_needed_for_distance (dist curAp destAp) ≤ ps.player.fuel →
      ∃ rooms' resp room' ps' st',
        MultiplayerGameService.player_travel dist rooms room_id player_id destination now
          = .ok (rooms', resp) ∧
        resp.success = true ∧
        resp.fuel_consumed
          = some (ps.player.fuel_needed_for_distance (dist curAp destAp)) ∧
        resp.new_location = some destination ∧
        rooms'.lookup room_id = some room' ∧
        room'.get_player player_id = some ps' ∧
        ps'.player.fuel
          = ps.player.fuel - ps.player.fuel_needed_for_distance (dist curAp destAp) ∧
        ps'.player.current_airport = destination ∧
        room'.player_statistics.lookup player_id = some st' ∧
        st'.distances_traveled = st.distances_traveled + dist curAp destAp ∧
        st'.airports_visited = (if st.airports_visited.contains destination
          then st.airports_visited else st.airports_visited ++ [destination]) ∧
        room'.shared_state.turn_number = room.shared_state.turn_number + 1) ∧
    (ps.player.fuel < ps.player.fuel_needed_for_distance (dist curAp destAp) →
      MultiplayerGameService.player_travel dist rooms room_id player_id destination now
        = .ok (rooms,
          { success := false
            message := "Insufficient fuel. Need "
              ++ toString (ps.player.fuel_needed_for_distance (dist curAp destAp))
              ++ " units, have " ++ toString ps.player.fuel
            fuel_consumed := none, new_location := none })) := by
  constructor
  · intro hle
    have hcan : ps.player.can_travel_distance (dist curAp destAp) = true :=
      decide_eq_true hle
    refine ⟨set_room rooms room_id
        (((room.update_player player_id fun p =>
            { (p.consume_fuel
                (ps.player.fuel_needed_for_distance (dist curAp destAp))).1 with
              current_airport := destination }).update_stats player_id fun s =>
            s.record_travel destination (dist curAp destAp)).advance_turn now),
      { success := true
        message := "Traveled to " ++ destAp.name ++ " (" ++ destination ++ ")"
        fuel_consumed := some (ps.player.fuel_needed_for_distance (dist curAp destAp))
        new_location := some destination },
      ((room.update_player player_id fun p =>
          { (p.consume_fuel
              (ps.player.fuel_needed_for_distance (dist curAp destAp))).1 with
            current_airport := destination }).update_stats player_id fun s =>
          s.record_travel destination (dist curAp destAp)).advance_turn now,
      { ps with player :=
          { (ps.player.consume_fuel
              (ps.player.fuel_needed_for_distance (dist curAp destAp))).1 with
            current_airport := destination } },
      st.record_travel destination (dist curAp destAp),
      ?_, rfl, rfl, rfl, ?_, ?_, ?_, rfl, ?_, rfl, rfl, ?_⟩
    · simp only [MultiplayerGameService.player_travel, hroom, hdest, hps, hcur, hcan]
      rw [if_neg (by simp)]
    · exact lookup_set_room rooms room_id room _ hroom
    · show (room.players.map _).find? _ = some _
      exact find?_map_player_update room.players player_id
        (fun q => { (q.consume_fuel
            (ps.player.fuel_needed_for_distance (dist curAp destAp))).1 with
          current_airport := destination }) ps hps
    · show ((ps.player.consume_fuel
        (ps.player.fuel_needed_for_distance (dist curAp destAp))).1).fuel = _
      unfold Player.consume_fuel
      rw [if_pos hle]
    · show (room.player_statistics.map _).lookup player_id = some _
      exact lookup_map_stats_update room.player_statistics player_id
        (fun s => s.record_travel destination (dist curAp destAp)) st hst
    · show u32add room.shared_state.turn_number 1 = _
      unfold u32add
      exact Nat.mod_eq_of_lt hturn
  · intro hlt
    have hcan : ps.player.can_travel_distance (dist curAp destAp) = false :=
      decide_eq_false (Nat.not_le.mpr hlt)
    simp only [MultiplayerGameService.player_travel, hroom, hdest, hps, hcur, hcan]
    rw [if_pos (by simp)]

/-- Witness for C4: Alice (133 fuel, efficiency 15) travels `demoRoom`'s
JFK → LAX leg at distance 150, consuming 10 fuel and advancing the turn. -/
theorem player_travel_spec_witness :
    ∃ rooms' resp room' ps' st',
      MultiplayerGameService.player_travel (fun _ _ => 150) [(0, demoRoom)] 0 1 "LAX" 9
        = .ok (rooms', resp) ∧
      resp.success = true ∧
      resp.fuel_consumed = some (demoHost.player.fuel_needed_for_distance 150) ∧
      resp.new_location = some "LAX" ∧
      rooms'.lookup 0 = some room' ∧
      room'.get_player 1 = some ps' ∧
      ps'.player.fuel
        = demoHost.player.fuel - demoHost.player.fuel_needed_for_distance 150 ∧
      ps'.player.current_airport = "LAX" ∧
      room'.player_statistics.lookup 1 = some st' ∧
      st'.distances_traveled = GameStatistics.new.distances_traveled + 150 ∧
      st'.airports_visited = (if GameStatistics.new.airports_visited.contains "LAX"
        then GameStatistics.new.airports_visited
        else GameStatistics.new.airports_visited ++ ["LAX"]) ∧
      room'.shared_state.turn_number = demoRoom.shared_state.turn_number + 1 :=
  (player_travel_spec (fun _ _ => 150) [(0, demoRoom)] 0 1 "LAX" 9 demoRoom laxAirport
    jfkAirport demoHost GameStatistics.new (by decide) (by decide) (by decide)
    (by decide) (by decide) (by decide)).1
    (by
      have h : (⌈(150 : ℚ) / 15⌉ : ℤ) = 10 := by
        rw [Int.ceil_eq_iff]
        norm_num
      show min (Int.toNat ⌈(150 : ℚ) / 15⌉) (U32 - 1) ≤ 133
      rw [h]
      decide)

end Kzrk
